import Mathlib

/-!
Shallow embedding of `src/scraper.py` (nrvrek/smarteyes_scraper).

The script is a three-stage pipeline:
  1. `get_hrefs` pages through a listing endpoint and accumulates the
     `href` attributes of matched anchors until a page yields none;
  2. `extract_dimensions` visits each product URL, pairs two node lists
     (property names / measurements) positionally and appends parsed
     integers into per-field columns of a Python dict;
  3. `save_as_csv` builds a pandas DataFrame from that dict and writes it
     to `data/smarteyes-herrbagar.csv`.

Network and DOM access are modelled by oracle functions:
  * a listing site is `String → List (Option String)` — for each page URL,
    the `href` attributes of the anchors matching the marker class
    `product-block-images` in document order (`a.get("href")` is `None`
    when the attribute is missing, hence `Option`);
  * a product site is `String → List String × List String` — for each
    product URL, the raw texts of the property-name nodes and of the
    measurement nodes (the two `find_all` calls of lines 84-92).

`tqdm` progress bars are pure observability and are not modelled; the
`tqdm.write` diagnostic lines are modelled as an accumulated list of
strings.  Python exceptions escaping a function are modelled with
`Except String`.
-/

/-- A value stored in one of the Python dict's list columns.  Python lists
are heterogeneous: the `url` column normally holds strings but the dynamic
`result[key].append` of line 104 can push an `int` into it. -/
inductive PyVal where
  | str : String → PyVal
  | int : Int → PyVal
deriving DecidableEq, Repr

/-- The dict built by `extract_dimensions` (line 71): five keys, each an
ordered list.  The four measurement columns only ever receive `int`s. -/
structure ScrapeResult where
  url : List PyVal
  bredd : List Int
  brygga : List Int
  glasbredd : List Int
  skalmlangd : List Int
deriving DecidableEq, Repr

/-- The empty dict of line 71. -/
def ScrapeResult.init : ScrapeResult := ⟨[], [], [], [], []⟩

/-- The whitespace characters stripped by Python `str.strip()`. -/
def isPyWhitespace (c : Char) : Bool :=
  c = ' ' || c = '\t' || c = '\n' || c = '\r' || c = '\x0b' || c = '\x0c'

/-- Drop leading and trailing whitespace from a character list. -/
def stripChars (cs : List Char) : List Char :=
  ((cs.dropWhile isPyWhitespace).reverse.dropWhile isPyWhitespace).reverse

/-- Python `str.strip()` / BeautifulSoup `get_text(strip=True)` on a text
node: drop leading and trailing whitespace. -/
def pyStrip (s : String) : String := String.mk (stripChars s.data)

/-- Python `str.lower()` restricted to the characters that can occur in
this site's labels: ASCII letters plus the Swedish capitals. -/
def pyCharLower (c : Char) : Char :=
  if c = 'Ä' then 'ä' else if c = 'Å' then 'å' else if c = 'Ö' then 'ö' else c.toLower

/-- Python `str.lower()`, character by character. -/
def pyLower (s : String) : String := String.mk (s.data.map pyCharLower)

/-- Python `str.replace(old, new)` for single-character arguments, which
is a character-wise map. -/
def pyReplaceChar (s : String) (old new : Char) : String :=
  String.mk (s.data.map (fun c => if c = old then new else c))

/-- Python `s.split(" ")[0]`: the characters before the first space
(the whole string when there is no space). -/
def firstToken (s : String) : String := String.mk (s.data.takeWhile (· ≠ ' '))

/-- Digit run of a Python `int()` literal: nonempty digits, with single
underscores allowed between digits. -/
def pyDigitsOk : List Char → Bool
  | [] => false
  | [c] => c.isDigit
  | c :: '_' :: rest => c.isDigit && pyDigitsOk rest
  | c :: rest => c.isDigit && pyDigitsOk rest

/-- Numeric value of a digit list, underscores skipped. -/
def digitsVal (cs : List Char) : Nat :=
  (cs.filter (· ≠ '_')).foldl (fun acc c => 10 * acc + (c.toNat - '0'.toNat)) 0

/-- Python `int(s)`: strip whitespace, optional sign, then a digit run;
`none` models the `ValueError` raised on anything else (non-digit text,
empty token, decimal point, ...). -/
def pyInt (s : String) : Option Int :=
  match stripChars s.data with
  | '+' :: rest => if pyDigitsOk rest then some (digitsVal rest) else none
  | '-' :: rest => if pyDigitsOk rest then some (-(digitsVal rest : Int)) else none
  | cs => if pyDigitsOk cs then some (digitsVal cs) else none

/-! ## Stage 1: `get_hrefs` (lines 11-46) -/

/-- `url_base` of line 26 (the listing endpoint). -/
def url_base : String := "https://smarteyes.se/glasogon/herr-bagar"

/-- The candidate page URLs of lines 28-29: the bare base URL followed by
`?page=n` for `n` in Python `range(2, 101)`. -/
def pageUrls : List String :=
  url_base :: (List.range' 2 99).map (fun n => url_base ++ "?page=" ++ toString n)

/-- A listing site oracle: page URL ↦ `href` attributes of the matched
anchors, in document order. -/
def ListingSite : Type := String → List (Option String)

/-- The `for url in urls` loop of lines 31-44.  Returns the accumulated
hrefs, the diagnostics written with `tqdm.write`, and the list of page
URLs actually fetched (each loop iteration issues one GET). -/
def get_hrefsLoop (site : ListingSite) : List String → List (Option String) × List String × List String
  | [] => ([], [], [])
  | u :: rest =>
    let hrefs_tmp := site u
    if hrefs_tmp.length > 0 then
      let (hs, ds, fetched) := get_hrefsLoop site rest
      (hrefs_tmp ++ hs, ds, u :: fetched)
    else
      ([], ["Last page: " ++ u], [u])

/-- `get_hrefs()` (lines 11-46), parameterised by the site oracle. -/
def get_hrefs (site : ListingSite) : List (Option String) × List String × List String :=
  get_hrefsLoop site pageUrls

/-! ## Stage 2: `extract_dimensions` (lines 49-114) -/

/-- `url_base` of line 73 (the host product links are resolved against;
a second local of the same name in the source). -/
def url_base_products : String := "https://www.smarteyes.se"

/-- A product site oracle: product URL ↦ (property-name node texts,
measurement node texts), as returned by the two `find_all` calls. -/
def ProductSite : Type := String → List String × List String

/-- The diagnostic of lines 107-109. -/
def invalidMsg (href measurement key : String) : String :=
  href ++ ": invalid measurement value \x27" ++ measurement ++ "\x27 or key \x27" ++ key ++ "\x27."

/-- The diagnostic of line 112. -/
def mismatchMsg (href : String) : String :=
  href ++ ": not equal number of properties and measurements"

/-- `result[key].append(n)` of line 104: dynamic dict lookup.  `none`
models the `KeyError` (unknown key) or the `ValueError` (failed `int()`)
caught by the bare `except` of line 105. -/
def dictAppend (res : ScrapeResult) (key : String) (v : Option Int) : Option ScrapeResult :=
  match v with
  | none => none
  | some n =>
    if key = "url" then some { res with url := res.url ++ [PyVal.int n] }
    else if key = "bredd" then some { res with bredd := res.bredd ++ [n] }
    else if key = "brygga" then some { res with brygga := res.brygga ++ [n] }
    else if key = "glasbredd" then some { res with glasbredd := res.glasbredd ++ [n] }
    else if key = "skalmlangd" then some { res with skalmlangd := res.skalmlangd ++ [n] }
    else none

/-- One iteration of the pair loop, lines 97-109: strip both node texts,
normalise the name into a key (`lower`, fold `ä` to `a`), parse the token
before the first space as an `int`, and try to append; on failure write
the diagnostic instead. -/
def processPair (href : String) (st : ScrapeResult × List String) (pr : String × String) :
    ScrapeResult × List String :=
  let prop := pyStrip pr.1
  let measurement := pyStrip pr.2
  let key := pyReplaceChar (pyLower prop) 'ä' 'a'
  match dictAppend st.1 key (pyInt (firstToken measurement)) with
  | some res => (res, st.2)
  | none => (st.1, st.2 ++ [invalidMsg href measurement key])

/-- The body of the `for i, href in enumerate(...)` loop, lines 75-112,
for one `href` (already known to be a string): append the resolved URL,
fetch the page, and either walk the zipped pairs (equal lengths) or write
the mismatch diagnostic. -/
def processHref (page : ProductSite) (href : String) (st : ScrapeResult × List String) :
    ScrapeResult × List String :=
  let url := url_base_products ++ href
  let st1 : ScrapeResult × List String := ({ st.1 with url := st.1.url ++ [PyVal.str url] }, st.2)
  let pm := page url
  if pm.1.length = pm.2.length then
    (pm.1.zip pm.2).foldl (processPair href) st1
  else
    (st1.1, st1.2 ++ [mismatchMsg href])

/-- Message of the `TypeError` raised by `url_base + href` (line 76) when
`href` is `None`. -/
def typeErrorMsg : String :=
  "TypeError: can only concatenate str (not \x22NoneType\x22) to str"

/-- The outer loop of `extract_dimensions`: each entry of `hrefs` is an
`a.get("href")` result, so possibly `None`; concatenating the base URL
with `None` raises before anything else happens in that iteration. -/
def extractLoop (page : ProductSite) :
    List (Option String) → ScrapeResult × List String → Except String (ScrapeResult × List String)
  | [], st => .ok st
  | none :: _, _ => .error typeErrorMsg
  | some h :: rest, st => extractLoop page rest (processHref page h st)

/-- `extract_dimensions(hrefs)` (lines 49-114), parameterised by the
product-site oracle.  Returns the result dict together with the
diagnostics written during the run. -/
def extract_dimensions (page : ProductSite) (hrefs : List (Option String)) :
    Except String (ScrapeResult × List String) :=
  extractLoop page hrefs (ScrapeResult.init, [])

/-! ## Stage 3: `save_as_csv` (lines 117-131) -/

/-- A minimal file-system state: the set of existing directories and the
files (path ↦ content). -/
structure FS where
  dirs : List String
  files : List (String × String)
deriving DecidableEq, Repr

/-- `os.makedirs(dir, exist_ok=True)` guarded by `os.path.exists` (lines
127-128): create the directory if missing, change nothing otherwise. -/
def makedirs (fs : FS) (d : String) : FS :=
  if d ∈ fs.dirs then fs else { fs with dirs := fs.dirs ++ [d] }

/-- Write (or overwrite) a file. -/
def writeFile (fs : FS) (path content : String) : FS :=
  { fs with files := fs.files.filter (fun p => p.1 ≠ path) ++ [(path, content)] }

/-- Look a file up. -/
def getFile (fs : FS) (path : String) : Option String :=
  (fs.files.filter (fun p => p.1 = path)).getLast?.map Prod.snd

/-- `pd.DataFrame(data)` accepts the dict only when all five columns have
the same length (otherwise it raises `ValueError`). -/
def eqLens (d : ScrapeResult) : Bool :=
  d.bredd.length == d.url.length && d.brygga.length == d.url.length &&
    d.glasbredd.length == d.url.length && d.skalmlangd.length == d.url.length

/-- Rendering of one cell by `DataFrame.to_csv` (`str()` of the value). -/
def renderCell : PyVal → String
  | .str s => s
  | .int n => toString n

/-- `data_dir` of line 126. -/
def data_dir : String := "data/"

/-- The output path of line 131. -/
def csvPath : String := data_dir ++ "smarteyes-herrbagar.csv"

/-- The header row written by `to_csv`: the dict keys in insertion
order, comma-separated. -/
def csvHeader : String := "url,bredd,brygga,glasbredd,skalmlangd"

/-- The data rows: the i-th element of every column, comma-separated,
one line per row (defined on equal-length columns via `zip`). -/
def csvRows (d : ScrapeResult) : List String :=
  ((((d.url.zip d.bredd).zip d.brygga).zip d.glasbredd).zip d.skalmlangd).map
    (fun x => renderCell x.1.1.1.1 ++ "," ++ toString x.1.1.1.2 ++ "," ++ toString x.1.1.2 ++
      "," ++ toString x.1.2 ++ "," ++ toString x.2 ++ "\n")

/-- The full file content produced by `df.to_csv(..., index=False)`:
header row, then one line per row, no index column. -/
def csvContent (d : ScrapeResult) : String :=
  csvHeader ++ "\n" ++ String.join (csvRows d)

/-- `save_as_csv(data)` (lines 117-131): ensure `data/` exists, then
build the DataFrame and write it.  The second component is `some ()` on
success and `none` when `pd.DataFrame` raised; in both cases the first
component is the file system after the call (the directory is created
before the DataFrame is built). -/
def save_as_csv (fs : FS) (data : ScrapeResult) : FS × Option Unit :=
  let fs1 := makedirs fs data_dir
  if eqLens data then
    (writeFile fs1 csvPath (csvContent data), some ())
  else
    (fs1, none)

/-! ## Derived characterisations of the extractor

These definitions are closed forms, proved below to describe the fold in
`processHref` / `extract_dimensions`; they are the vocabulary of the
theorems. -/

/-- The key derived from a property-name node text (lines 98 and 101):
strip, lower-case, fold `ä` to `a`. -/
def pairKey (pr : String × String) : String :=
  pyReplaceChar (pyLower (pyStrip pr.1)) 'ä' 'a'

/-- The parsed value of a measurement node text (lines 99 and 104):
strip, take the token before the first space, convert with `int()`. -/
def pairVal (pr : String × String) : Option Int :=
  pyInt (firstToken (pyStrip pr.2))

/-- The keys of the dict of line 71, in insertion order. -/
def dictKeys : List String := ["url", "bredd", "brygga", "glasbredd", "skalmlangd"]

/-- A pair is stored (rather than skipped with a diagnostic) exactly when
its key is a dict key and its value parses. -/
def pairOk (pr : String × String) : Bool :=
  dictKeys.contains (pairKey pr) && (pairVal pr).isSome

/-- The values a list of pairs contributes to the column `k`. -/
def colGain (k : String) (pairs : List (String × String)) : List Int :=
  pairs.filterMap (fun pr => if pairKey pr = k then pairVal pr else none)

/-- The extra values the dynamic lookup pushes into the `url` column:
pairs whose derived key is `"url"`. -/
def urlGain (pairs : List (String × String)) : List PyVal :=
  (colGain "url" pairs).map PyVal.int

/-- The diagnostics a list of pairs contributes. -/
def diagGain (href : String) (pairs : List (String × String)) : List String :=
  pairs.filterMap (fun pr =>
    if pairOk pr then none else some (invalidMsg href (pyStrip pr.2) (pairKey pr)))

/-- The pairs one product page contributes: the zipped lists when their
lengths match, nothing otherwise. -/
def hrefPairs (page : ProductSite) (href : String) : List (String × String) :=
  let pm := page (url_base_products ++ href)
  if pm.1.length = pm.2.length then pm.1.zip pm.2 else []

/-- The diagnostics one product page contributes. -/
def hrefDiags (page : ProductSite) (href : String) : List String :=
  let pm := page (url_base_products ++ href)
  if pm.1.length = pm.2.length then diagGain href (pm.1.zip pm.2)
  else [mismatchMsg href]

/-- The full `url` column over a run: one string per href, interleaved
with any `url`-keyed integers from that product's page. -/
def urlCol (page : ProductSite) (hrefs : List String) : List PyVal :=
  (hrefs.map (fun h => PyVal.str (url_base_products ++ h) :: urlGain (hrefPairs page h))).flatten

/-- The full measurement column `k` over a run. -/
def colFull (page : ProductSite) (k : String) (hrefs : List String) : List Int :=
  (hrefs.map (fun h => colGain k (hrefPairs page h))).flatten

/-- The full diagnostic stream over a run. -/
def diagsFull (page : ProductSite) (hrefs : List String) : List String :=
  (hrefs.map (fun h => hrefDiags page h)).flatten

/-! ## Concrete oracles used as witnesses and counterexamples -/

/-- A product page whose single measurement text does not parse. -/
def pageBadValue : ProductSite := fun _ => (["Bredd"], ["abc mm"])

/-- A product page with one property name and zero measurements. -/
def pageMismatch : ProductSite := fun _ => (["Bredd"], [])

/-- A product page whose property name normalises to the dict key
`"url"`, which is not one of the four measurement fields. -/
def pageUrlKey : ProductSite := fun _ => (["Url"], ["54 mm"])

/-- A product page with a name needing the full normalisation. -/
def pageTwoProps : ProductSite := fun _ => (["  Skalmlängd ", "Bredd"], ["140 mm", "54 mm"])

/-- A listing site with one product on page `"A"` and nothing anywhere
else. -/
def siteOnePage : ListingSite := fun v => if v = "A" then [some "/x"] else []

/-- A listing site on which every page has one product. -/
def siteAll : ListingSite := fun _ => [some "/a"]

/-- A listing site whose first real page has two matched anchors, the
second of which has no `href` attribute. -/
def siteNoneHref : ListingSite := fun v => if v = url_base then [some "/a", none] else []

/-- A file system that already has the output directory and an old copy
of the output file. -/
def fsWithData : FS := ⟨["data/"], [("data/smarteyes-herrbagar.csv", "old")]⟩

/-- A file system with no `data/` directory and one unrelated file. -/
def fsPlain : FS := ⟨[], [("notes.txt", "x")]⟩

/-- A one-row dict with all five columns of equal length. -/
def dOneRow : ScrapeResult := ⟨[PyVal.str "u"], [1], [2], [3], [4]⟩

/-- A ragged dict: one URL recorded but a measurement column left
shorter, as `extract_dimensions` produces whenever a pair is skipped. -/
def dRagged : ScrapeResult :=
  ⟨[PyVal.str "https://www.smarteyes.se/p1"], [], [], [], []⟩

/-- `processPair` in terms of `pairKey` and `pairVal`. -/
lemma processPair_eq (href : String) (res : ScrapeResult) (ds : List String)
    (pr : String × String) :
    processPair href (res, ds) pr =
      match pairVal pr with
      | none => (res, ds ++ [invalidMsg href (pyStrip pr.2) (pairKey pr)])
      | some n =>
        if pairKey pr = "url" then ({ res with url := res.url ++ [PyVal.int n] }, ds)
        else if pairKey pr = "bredd" then ({ res with bredd := res.bredd ++ [n] }, ds)
        else if pairKey pr = "brygga" then ({ res with brygga := res.brygga ++ [n] }, ds)
        else if pairKey pr = "glasbredd" then ({ res with glasbredd := res.glasbredd ++ [n] }, ds)
        else if pairKey pr = "skalmlangd" then ({ res with skalmlangd := res.skalmlangd ++ [n] }, ds)
        else (res, ds ++ [invalidMsg href (pyStrip pr.2) (pairKey pr)]) := by
  show (match dictAppend res (pairKey pr) (pairVal pr) with
        | some r => (r, ds)
        | none => (res, ds ++ [invalidMsg href (pyStrip pr.2) (pairKey pr)])) = _
  cases hv : pairVal pr with
  | none => simp [dictAppend]
  | some n =>
    simp only [dictAppend]
    split_ifs <;> simp

/-- Unfolding lemma for `colGain` on a cons. -/
lemma colGain_cons (k : String) (pr : String × String) (pairs : List (String × String)) :
    colGain k (pr :: pairs) =
      (if pairKey pr = k then (pairVal pr).toList else []) ++ colGain k pairs := by
  unfold colGain
  rw [List.filterMap_cons]
  split_ifs with h
  · cases pairVal pr <;> simp [h]
  · simp [h]

/-- Unfolding lemma for `diagGain` on a cons. -/
lemma diagGain_cons (href : String) (pr : String × String) (pairs : List (String × String)) :
    diagGain href (pr :: pairs) =
      (if pairOk pr then [] else [invalidMsg href (pyStrip pr.2) (pairKey pr)]) ++
        diagGain href pairs := by
  unfold diagGain
  rw [List.filterMap_cons]
  split_ifs with h <;> simp [h]

/-- The pair fold of lines 97-109, characterised column by column: each
column receives exactly the values of the pairs whose key names it, in
order, and the diagnostics are those of the failing pairs, in order. -/
lemma foldl_processPair (href : String) (pairs : List (String × String))
    (res : ScrapeResult) (ds : List String) :
    pairs.foldl (processPair href) (res, ds) =
      ({ url := res.url ++ urlGain pairs,
         bredd := res.bredd ++ colGain "bredd" pairs,
         brygga := res.brygga ++ colGain "brygga" pairs,
         glasbredd := res.glasbredd ++ colGain "glasbredd" pairs,
         skalmlangd := res.skalmlangd ++ colGain "skalmlangd" pairs },
       ds ++ diagGain href pairs) := by
  induction pairs generalizing res ds with
  | nil => simp [urlGain, colGain, diagGain]
  | cons pr rest ih =>
    rw [List.foldl_cons, processPair_eq]
    cases hv : pairVal pr with
    | none =>
      have hok : pairOk pr = false := by simp [pairOk, hv]
      simp only [ih, urlGain, colGain_cons, diagGain_cons, hok, hv]
      simp
    | some n =>
      by_cases h1 : pairKey pr = "url"
      · have hok : pairOk pr = true := by simp [pairOk, hv, h1, dictKeys]
        simp only [h1, if_pos, ih, urlGain, colGain_cons, diagGain_cons, hok, hv]
        simp [h1]
      · by_cases h2 : pairKey pr = "bredd"
        · have hok : pairOk pr = true := by simp [pairOk, hv, h2, dictKeys]
          simp only [h1, h2, if_neg, if_pos, ih, urlGain, colGain_cons, diagGain_cons, hok, hv]
          simp [h1, h2]
        · by_cases h3 : pairKey pr = "brygga"
          · have hok : pairOk pr = true := by simp [pairOk, hv, h3, dictKeys]
            simp only [h1, h2, h3, if_neg, if_pos, ih, urlGain, colGain_cons, diagGain_cons,
              hok, hv]
            simp [h1, h2, h3]
          · by_cases h4 : pairKey pr = "glasbredd"
            · have hok : pairOk pr = true := by simp [pairOk, hv, h4, dictKeys]
              simp only [h1, h2, h3, h4, if_neg, if_pos, ih, urlGain, colGain_cons,
                diagGain_cons, hok, hv]
              simp [h1, h2, h3, h4]
            · by_cases h5 : pairKey pr = "skalmlangd"
              · have hok : pairOk pr = true := by simp [pairOk, hv, h5, dictKeys]
                simp only [h1, h2, h3, h4, h5, if_neg, if_pos, ih, urlGain, colGain_cons,
                  diagGain_cons, hok, hv]
                simp [h1, h2, h3, h4, h5]
              · have hok : pairOk pr = false := by
                  simp [pairOk, hv, dictKeys, h1, h2, h3, h4, h5]
                simp only [h1, h2, h3, h4, h5, if_neg, ih, urlGain, colGain_cons,
                  diagGain_cons, hok, hv]
                simp [h1, h2, h3, h4, h5]

/-- One product iteration, characterised: the URL string is always
appended; on matching list lengths the columns gain the pairs' values,
otherwise only the mismatch diagnostic is written. -/
lemma processHref_eq (page : ProductSite) (href : String) (res : ScrapeResult)
    (ds : List String) :
    processHref page href (res, ds) =
      ({ url := res.url ++ PyVal.str (url_base_products ++ href) :: urlGain (hrefPairs page href),
         bredd := res.bredd ++ colGain "bredd" (hrefPairs page href),
         brygga := res.brygga ++ colGain "brygga" (hrefPairs page href),
         glasbredd := res.glasbredd ++ colGain "glasbredd" (hrefPairs page href),
         skalmlangd := res.skalmlangd ++ colGain "skalmlangd" (hrefPairs page href) },
       ds ++ hrefDiags page href) := by
  unfold processHref hrefPairs hrefDiags
  by_cases h : (page (url_base_products ++ href)).1.length = (page (url_base_products ++ href)).2.length
  · simp only [h, if_pos, foldl_processPair]
    simp
  · simp only [h, if_neg, if_false]
    simp [urlGain, colGain, h]

/-- The outer loop of `extract_dimensions` on a list of present hrefs:
`Except.ok`, with every column the concatenation of the per-product
contributions, in product order, with no placeholders. -/
lemma extractLoop_eq (page : ProductSite) (hrefs : List String) (res : ScrapeResult)
    (ds : List String) :
    extractLoop page (hrefs.map some) (res, ds) =
      .ok ({ url := res.url ++ urlCol page hrefs,
             bredd := res.bredd ++ colFull page "bredd" hrefs,
             brygga := res.brygga ++ colFull page "brygga" hrefs,
             glasbredd := res.glasbredd ++ colFull page "glasbredd" hrefs,
             skalmlangd := res.skalmlangd ++ colFull page "skalmlangd" hrefs },
           ds ++ diagsFull page hrefs) := by
  induction hrefs generalizing res ds with
  | nil => simp [extractLoop, urlCol, colFull, diagsFull]
  | cons h rest ih =>
    show extractLoop page (some h :: rest.map some) (res, ds) = _
    rw [extractLoop, processHref_eq, ih]
    simp [urlCol, colFull, diagsFull]

/-- `extract_dimensions` on a list of present hrefs, in closed form. -/
lemma extract_dimensions_eq (page : ProductSite) (hrefs : List String) :
    extract_dimensions page (hrefs.map some) =
      .ok ({ url := urlCol page hrefs,
             bredd := colFull page "bredd" hrefs,
             brygga := colFull page "brygga" hrefs,
             glasbredd := colFull page "glasbredd" hrefs,
             skalmlangd := colFull page "skalmlangd" hrefs },
           diagsFull page hrefs) := by
  rw [extract_dimensions, ScrapeResult.init, extractLoop_eq]
  simp

/-- A `None` href anywhere in the input makes `extract_dimensions` raise,
whatever was processed before it. -/
lemma extractLoop_error (page : ProductSite) (l : List (Option String))
    (hl : none ∈ l) (st : ScrapeResult × List String) :
    extractLoop page l st = .error typeErrorMsg := by
  induction l generalizing st with
  | nil => cases hl
  | cons a rest ih =>
    cases a with
    | none => rfl
    | some h =>
      have : none ∈ rest := by
        cases List.mem_cons.mp hl with
        | inl hh => cases hh
        | inr hh => exact hh
      exact ih this _

/-- The pagination loop on a URL sequence whose first empty page is `u`:
all hrefs before `u` are accumulated in order, only the pages up to and
including `u` are fetched, and the terminal diagnostic names `u`. -/
lemma get_hrefsLoop_firstEmpty (site : ListingSite) (us1 : List String) (u : String)
    (us2 : List String) (h1 : ∀ v ∈ us1, site v ≠ []) (h2 : site u = []) :
    get_hrefsLoop site (us1 ++ u :: us2) =
      ((us1.map site).flatten, ["Last page: " ++ u], us1 ++ [u]) := by
  induction us1 with
  | nil =>
    simp only [List.nil_append]
    rw [get_hrefsLoop]
    simp [h2]
  | cons v rest ih =>
    have hv : site v ≠ [] := h1 v (List.mem_cons_self v rest)
    have hlen : (site v).length > 0 := List.length_pos.mpr hv
    rw [List.cons_append, get_hrefsLoop]
    simp only [hlen, if_pos]
    rw [ih (fun w hw => h1 w (List.mem_cons_of_mem v hw))]
    simp

/-- The pagination loop on a URL sequence with no empty page: every page
is fetched, all hrefs are accumulated, and no diagnostic is written. -/
lemma get_hrefsLoop_allNonempty (site : ListingSite) (us : List String)
    (h : ∀ v ∈ us, site v ≠ []) :
    get_hrefsLoop site us = ((us.map site).flatten, [], us) := by
  induction us with
  | nil => rfl
  | cons v rest ih =>
    have hv : site v ≠ [] := h v (List.mem_cons_self v rest)
    have hlen : (site v).length > 0 := List.length_pos.mpr hv
    rw [get_hrefsLoop]
    simp only [hlen, if_pos]
    rw [ih (fun w hw => h w (List.mem_cons_of_mem v hw))]
    simp

/-! ## Claim theorems -/

/-- Claim C4: for every sequence of listing pages, the collector loop of
`get_hrefs` appends all matched hrefs of each non-empty page in order and
continues, stops at the first page yielding zero matched anchors, fetches
no page after it, and reports that page's URL as the last page. -/
theorem pagination_stops_at_first_empty_page (site : ListingSite) (us1 : List String)
    (u : String) (us2 : List String) (h1 : ∀ v ∈ us1, site v ≠ []) (h2 : site u = []) :
    get_hrefsLoop site (us1 ++ u :: us2) =
      ((us1.map site).flatten, ["Last page: " ++ u], us1 ++ [u]) :=
  get_hrefsLoop_firstEmpty site us1 u us2 h1 h2

/-- Witness for C4: pages `"A"` (one anchor), `"B"` (empty), `"C"` (never
fetched). -/
theorem pagination_stops_at_first_empty_page_witness :
    get_hrefsLoop siteOnePage (["A"] ++ "B" :: ["C"]) =
      ((["A"].map siteOnePage).flatten, ["Last page: " ++ "B"], ["A"] ++ ["B"]) :=
  pagination_stops_at_first_empty_page siteOnePage ["A"] "B" ["C"]
    (by intro v hv; simp only [List.mem_singleton] at hv; subst hv; simp [siteOnePage])
    (by simp [siteOnePage])

/-- Claim C5: the candidate sequence is the bare base URL followed by
`?page=n` for `n` from 2 to 100 — 100 candidate pages in total — and when
every candidate page yields anchors the collector consumes them all and
stops silently, with no terminal-page message. -/
theorem candidate_pages_capped_at_100_then_silent (site : ListingSite)
    (h : ∀ v ∈ pageUrls, site v ≠ []) :
    pageUrls.length = 100 ∧
    pageUrls.head? = some url_base ∧
    (∀ i : Nat, i < 99 → pageUrls[i + 1]? = some (url_base ++ "?page=" ++ toString (i + 2))) ∧
    get_hrefs site = ((pageUrls.map site).flatten, [], pageUrls) := by
  refine ⟨?_, rfl, ?_, get_hrefsLoop_allNonempty site pageUrls h⟩
  · simp [pageUrls]
  · intro i hi
    simp only [pageUrls, List.getElem?_cons_succ, List.getElem?_map]
    rw [List.getElem?_range' ]
    · simp [Nat.add_comm 2 i]
    · exact hi

/-- Witness for C5: a site where every page has an anchor; all 100
candidate pages are consumed and no terminal-page message is emitted. -/
theorem candidate_pages_capped_at_100_then_silent_witness :
    get_hrefs siteAll = ((pageUrls.map siteAll).flatten, [], pageUrls) :=
  (candidate_pages_capped_at_100_then_silent siteAll
    (by intro v hv; simp [siteAll])).2.2.2

/-- The candidate list split after its first element, used to run the
collector loop symbolically for two pages. -/
lemma pageUrls_split :
    pageUrls = [url_base] ++ (url_base ++ "?page=" ++ toString 2) ::
      ((List.range' 3 98).map (fun n => url_base ++ "?page=" ++ toString n)) := rfl

/-- Claim C10: an anchor matched without an `href` attribute makes
`get_hrefs` record `none`, which makes its page count as non-empty and
adds to the final link count; `extract_dimensions` then raises a
`TypeError` on `url_base + None`.  Stated for a site whose first page
holds the anchors and whose second page is empty. -/
theorem missing_href_collected_then_fatal (site : ListingSite) (page : ProductSite)
    (anchors : List (Option String)) (hnone : none ∈ anchors)
    (h1 : site url_base = anchors)
    (h2 : site (url_base ++ "?page=" ++ toString 2) = []) :
    get_hrefs site =
      (anchors, ["Last page: " ++ (url_base ++ "?page=" ++ toString 2)],
        [url_base, url_base ++ "?page=" ++ toString 2]) ∧
    extract_dimensions page anchors = .error typeErrorMsg := by
  constructor
  · rw [get_hrefs, pageUrls_split,
      get_hrefsLoop_firstEmpty site [url_base] _ _ ?_ h2]
    · simp [h1]
    · intro v hv
      simp only [List.mem_singleton] at hv
      subst hv
      rw [h1]
      exact List.ne_nil_of_mem hnone
  · exact extractLoop_error page anchors hnone _

/-- Witness for C10: a concrete site whose first page has one good
anchor and one anchor without `href`. -/
theorem missing_href_collected_then_fatal_witness :
    get_hrefs siteNoneHref =
      ([some "/a", none], ["Last page: " ++ (url_base ++ "?page=" ++ toString 2)],
        [url_base, url_base ++ "?page=" ++ toString 2]) ∧
    extract_dimensions pageMismatch [some "/a", none] = .error typeErrorMsg :=
  missing_href_collected_then_fatal siteNoneHref pageMismatch [some "/a", none]
    (by simp)
    (by simp [siteNoneHref])
    (by
      have hne : (url_base ++ "?page=" ++ toString 2) ≠ url_base := by decide
      simp [siteNoneHref, hne])

/-- Claim C2: when the property list and the measurement list of a
product page differ in length, the whole page is skipped for data — no
column but `url` changes — the URL is still recorded in the row, and the
mismatch diagnostic naming the href is emitted. -/
theorem mismatched_page_keeps_url_only (page : ProductSite) (href : String)
    (st : ScrapeResult × List String)
    (h : (page (url_base_products ++ href)).1.length ≠
      (page (url_base_products ++ href)).2.length) :
    processHref page href st =
      ({ st.1 with url := st.1.url ++ [PyVal.str (url_base_products ++ href)] },
       st.2 ++ [mismatchMsg href]) := by
  unfold processHref
  simp [h]

/-- Witness for C2: a page with one property name and no measurements. -/
theorem mismatched_page_keeps_url_only_witness :
    processHref pageMismatch "/w2" (ScrapeResult.init, []) =
      ({ ScrapeResult.init with
          url := ScrapeResult.init.url ++ [PyVal.str (url_base_products ++ "/w2")] },
       [] ++ [mismatchMsg "/w2"]) :=
  mismatched_page_keeps_url_only pageMismatch "/w2" (ScrapeResult.init, []) (by decide)

/-- Counterexample to claim C3 as stated: the pair `("Url", "54 mm")`
derives the key `"url"`, which is not one of the four known measurement
fields, and its numeric parse succeeds; the code does not skip the pair
and emits no diagnostic — it appends the integer to the `url` column,
because the validation is a dynamic lookup in the five-key dict. -/
theorem unknown_key_url_not_skipped :
    pairKey ("Url", "54 mm") = "url" ∧
    ("url" ∉ ["bredd", "brygga", "glasbredd", "skalmlangd"]) ∧
    processHref pageUrlKey "/p" (ScrapeResult.init, []) =
      ({ url := [PyVal.str "https://www.smarteyes.se/p", PyVal.int 54],
         bredd := [], brygga := [], glasbredd := [], skalmlangd := [] }, []) := by
  refine ⟨by decide, by decide, by decide⟩

/-- Claim C3 as amended: on a page whose lists match, a pair whose
derived key is not one of the five dict keys (`url` plus the four
fields), or whose numeric parse fails, is skipped alone — the diagnostic
naming the href, the stripped value text and the key is emitted, and
every column still receives exactly the values of its own successfully
parsed pairs. -/
theorem failed_pair_skipped_siblings_kept (href : String) (res : ScrapeResult)
    (ds : List String) (pairs : List (String × String)) (pr : String × String)
    (hmem : pr ∈ pairs) (hbad : pairOk pr = false) :
    (pairs.foldl (processPair href) (res, ds)).2 = ds ++ diagGain href pairs ∧
    invalidMsg href (pyStrip pr.2) (pairKey pr) ∈
      (pairs.foldl (processPair href) (res, ds)).2 ∧
    (pairs.foldl (processPair href) (res, ds)).1.bredd = res.bredd ++ colGain "bredd" pairs ∧
    (pairs.foldl (processPair href) (res, ds)).1.brygga =
      res.brygga ++ colGain "brygga" pairs ∧
    (pairs.foldl (processPair href) (res, ds)).1.glasbredd =
      res.glasbredd ++ colGain "glasbredd" pairs ∧
    (pairs.foldl (processPair href) (res, ds)).1.skalmlangd =
      res.skalmlangd ++ colGain "skalmlangd" pairs := by
  rw [foldl_processPair]
  refine ⟨rfl, ?_, rfl, rfl, rfl, rfl⟩
  simp only [List.mem_append]
  right
  rw [diagGain, List.mem_filterMap]
  exact ⟨pr, hmem, by simp [hbad]⟩

/-- Witness for C3 (amended): the bad pair `("Djup", "54 mm")` is skipped
with its diagnostic while the sibling `("Bredd", "54 mm")` survives. -/
theorem failed_pair_skipped_siblings_kept_witness :
    ([("Bredd", "54 mm"), ("Djup", "54 mm")].foldl (processPair "/w3")
        (ScrapeResult.init, [])).2 =
      ["/w3: invalid measurement value \x2754 mm\x27 or key \x27djup\x27."] ∧
    ([("Bredd", "54 mm"), ("Djup", "54 mm")].foldl (processPair "/w3")
        (ScrapeResult.init, [])).1.bredd = [54] := by
  have h := failed_pair_skipped_siblings_kept "/w3" ScrapeResult.init []
    [("Bredd", "54 mm"), ("Djup", "54 mm")] ("Djup", "54 mm") (by decide) (by decide)
  refine ⟨?_, ?_⟩
  · rw [h.1]; decide
  · rw [h.2.2.1]; decide

/-- Claim C6: on a page whose lists match in length, each column receives
exactly the pairs whose name text — stripped, lower-cased, with `ä`
folded to `a` — names that column, and the stored value is the `int()`
conversion of the token of the (stripped) value text before its first
space. -/
theorem key_normalisation_and_value_parse (page : ProductSite) (href : String)
    (res : ScrapeResult) (ds : List String)
    (h : (page (url_base_products ++ href)).1.length =
      (page (url_base_products ++ href)).2.length) :
    (processHref page href (res, ds)).1.bredd =
      res.bredd ++ ((page (url_base_products ++ href)).1.zip
          (page (url_base_products ++ href)).2).filterMap
        (fun pr => if pyReplaceChar (pyLower (pyStrip pr.1)) 'ä' 'a' = "bredd"
          then pyInt (firstToken (pyStrip pr.2)) else none) ∧
    (processHref page href (res, ds)).1.brygga =
      res.brygga ++ ((page (url_base_products ++ href)).1.zip
          (page (url_base_products ++ href)).2).filterMap
        (fun pr => if pyReplaceChar (pyLower (pyStrip pr.1)) 'ä' 'a' = "brygga"
          then pyInt (firstToken (pyStrip pr.2)) else none) ∧
    (processHref page href (res, ds)).1.glasbredd =
      res.glasbredd ++ ((page (url_base_products ++ href)).1.zip
          (page (url_base_products ++ href)).2).filterMap
        (fun pr => if pyReplaceChar (pyLower (pyStrip pr.1)) 'ä' 'a' = "glasbredd"
          then pyInt (firstToken (pyStrip pr.2)) else none) ∧
    (processHref page href (res, ds)).1.skalmlangd =
      res.skalmlangd ++ ((page (url_base_products ++ href)).1.zip
          (page (url_base_products ++ href)).2).filterMap
        (fun pr => if pyReplaceChar (pyLower (pyStrip pr.1)) 'ä' 'a' = "skalmlangd"
          then pyInt (firstToken (pyStrip pr.2)) else none) := by
  rw [processHref_eq]
  have hp : hrefPairs page href =
      (page (url_base_products ++ href)).1.zip (page (url_base_products ++ href)).2 := by
    simp [hrefPairs, h]
  refine ⟨?_, ?_, ?_, ?_⟩ <;> simp [hp, colGain, pairKey, pairVal]

/-- Witness for C6: `"  Skalmlängd "` normalises to `skalmlangd` and
`"140 mm"` parses to `140`. -/
theorem key_normalisation_and_value_parse_witness :
    (processHref pageTwoProps "/w6" (ScrapeResult.init, [])).1.skalmlangd = [140] ∧
    (processHref pageTwoProps "/w6" (ScrapeResult.init, [])).1.bredd = [54] := by
  have h := key_normalisation_and_value_parse pageTwoProps "/w6" ScrapeResult.init []
    (by decide)
  refine ⟨?_, ?_⟩
  · rw [h.2.2.2]; decide
  · rw [h.1]; decide

/-- Sum of a map of successors, split off. -/
lemma sum_map_succ {α : Type} (l : List α) (g : α → Nat) :
    (l.map (fun x => g x + 1)).sum = (l.map g).sum + l.length := by
  induction l with
  | nil => rfl
  | cons x xs ih => simp [ih]; omega

/-- Claim C8 as amended: over a whole run on present hrefs, each of the
four measurement columns is the concatenation of the per-product
successfully parsed values for that key — its length is the number of
such pairs across all products, with no placeholder for a skipped pair —
while the `url` column holds one entry per input href plus one extra
`int` entry for every pair whose derived key was `"url"` and whose value
parsed (in the absence of such pairs, exactly one entry per href). -/
theorem column_lengths_characterised (page : ProductSite) (hrefs : List String) :
    extract_dimensions page (hrefs.map some) =
      .ok ({ url := urlCol page hrefs,
             bredd := colFull page "bredd" hrefs,
             brygga := colFull page "brygga" hrefs,
             glasbredd := colFull page "glasbredd" hrefs,
             skalmlangd := colFull page "skalmlangd" hrefs },
           diagsFull page hrefs) ∧
    (colFull page "bredd" hrefs).length =
      (hrefs.map (fun h => (colGain "bredd" (hrefPairs page h)).length)).sum ∧
    (colFull page "brygga" hrefs).length =
      (hrefs.map (fun h => (colGain "brygga" (hrefPairs page h)).length)).sum ∧
    (colFull page "glasbredd" hrefs).length =
      (hrefs.map (fun h => (colGain "glasbredd" (hrefPairs page h)).length)).sum ∧
    (colFull page "skalmlangd" hrefs).length =
      (hrefs.map (fun h => (colGain "skalmlangd" (hrefPairs page h)).length)).sum ∧
    (urlCol page hrefs).length =
      hrefs.length + (hrefs.map (fun h => (urlGain (hrefPairs page h)).length)).sum := by
  refine ⟨extract_dimensions_eq page hrefs, ?_, ?_, ?_, ?_, ?_⟩
  · simp [colFull, List.length_flatten, Function.comp_def]
  · simp [colFull, List.length_flatten, Function.comp_def]
  · simp [colFull, List.length_flatten, Function.comp_def]
  · simp [colFull, List.length_flatten, Function.comp_def]
  · simp only [urlCol, List.length_flatten, List.map_map, Function.comp_def,
      List.length_cons]
    rw [sum_map_succ]
    omega

/-- Counterexample to claim C8 as stated: with one input href but a page
whose property name normalises to `"url"`, the `url` list ends up with
two entries, not one per href. -/
theorem url_column_longer_than_hrefs :
    extract_dimensions pageUrlKey [some "/p"] =
      .ok ({ url := [PyVal.str "https://www.smarteyes.se/p", PyVal.int 54],
             bredd := [], brygga := [], glasbredd := [], skalmlangd := [] }, []) ∧
    ([PyVal.str "https://www.smarteyes.se/p", PyVal.int 54] : List PyVal).length = 2 ∧
    ([some "/p"] : List (Option String)).length = 1 := by
  refine ⟨by rfl, by decide, by decide⟩

/-- Looking up the path just written returns the new content, whatever
was stored there before: writes overwrite unconditionally. -/
lemma getFile_writeFile (fs : FS) (p c : String) :
    getFile (writeFile fs p c) p = some c := by
  have h0 : (fs.files.filter (fun x => decide (x.1 ≠ p))).filter
      (fun x => decide (x.1 = p)) = [] := by
    rw [List.filter_eq_nil_iff]
    intro a ha
    have := (List.mem_filter.mp ha).2
    simp at this ⊢
    exact this
  simp [getFile, writeFile, List.filter_append, h0]

/-- Claim C7: on a dict with equal column lengths, `save_as_csv` succeeds,
ensures `data/` exists (creating it exactly when missing, touching
nothing when present), and stores at `data/smarteyes-herrbagar.csv` —
overwriting whatever was there — the header `url,bredd,brygga,glasbredd,
skalmlangd` followed by one line per row and no index column. -/
theorem save_writes_table (fs : FS) (d : ScrapeResult) (h : eqLens d = true) :
    (save_as_csv fs d).2 = some () ∧
    data_dir ∈ (save_as_csv fs d).1.dirs ∧
    (data_dir ∈ fs.dirs → (save_as_csv fs d).1.dirs = fs.dirs) ∧
    (data_dir ∉ fs.dirs → (save_as_csv fs d).1.dirs = fs.dirs ++ [data_dir]) ∧
    getFile (save_as_csv fs d).1 csvPath = some (csvContent d) ∧
    csvPath = "data/smarteyes-herrbagar.csv" ∧
    csvContent d = csvHeader ++ "\n" ++ String.join (csvRows d) ∧
    csvHeader = "url,bredd,brygga,glasbredd,skalmlangd" ∧
    (csvRows d).length = d.url.length := by
  have hsave : save_as_csv fs d =
      (writeFile (makedirs fs data_dir) csvPath (csvContent d), some ()) := by
    simp [save_as_csv, h]
  have h' := h
  simp only [eqLens, Bool.and_eq_true, beq_iff_eq] at h'
  obtain ⟨⟨⟨hb, hg⟩, hl⟩, hs⟩ := h'
  refine ⟨by rw [hsave], ?_, ?_, ?_, ?_, rfl, rfl, rfl, ?_⟩
  · rw [hsave]
    by_cases hd : data_dir ∈ fs.dirs <;> simp [writeFile, makedirs, hd]
  · intro hd
    rw [hsave]
    simp [writeFile, makedirs, hd]
  · intro hd
    rw [hsave]
    simp [writeFile, makedirs, hd]
  · rw [hsave]
    exact getFile_writeFile _ _ _
  · simp [csvRows, List.length_zip, hb, hg, hl, hs]

/-- Witness for C7: writing a one-row table over an existing file, with
the directory already present. -/
theorem save_writes_table_witness :
    (save_as_csv fsWithData dOneRow).2 = some () ∧
    getFile (save_as_csv fsWithData dOneRow).1 csvPath = some (csvContent dOneRow) ∧
    (save_as_csv fsWithData dOneRow).1.dirs = fsWithData.dirs := by
  have h := save_writes_table fsWithData dOneRow (by decide)
  exact ⟨h.1, h.2.2.2.2.1, h.2.2.1 (by decide)⟩

/-- Claim C9: when the columns are not all the same length, the DataFrame
construction raises — `save_as_csv` returns no success, writes no file —
but the output directory has already been ensured. -/
theorem ragged_dict_aborts_save (fs : FS) (d : ScrapeResult) (h : eqLens d = false) :
    (save_as_csv fs d).2 = none ∧
    (save_as_csv fs d).1.files = fs.files ∧
    data_dir ∈ (save_as_csv fs d).1.dirs := by
  by_cases hd : data_dir ∈ fs.dirs <;> simp [save_as_csv, h, makedirs, hd]

/-- Witness for C9: a dict with one URL and empty measurement columns
aborts the write but creates `data/`. -/
theorem ragged_dict_aborts_save_witness :
    (save_as_csv fsPlain dRagged).2 = none ∧
    (save_as_csv fsPlain dRagged).1.files = fsPlain.files ∧
    data_dir ∈ (save_as_csv fsPlain dRagged).1.dirs :=
  ragged_dict_aborts_save fsPlain dRagged (by decide)

/-- Claim C1 fails on the code: one collected link whose only pair fails
to parse yields a dict with the URL recorded but a shorter measurement
column, and `save_as_csv` then produces no output table at all (no file
is written), instead of a one-row table with an absent value. -/
theorem skipped_field_produces_no_table :
    extract_dimensions pageBadValue [some "/p1"] =
      .ok ({ url := [PyVal.str "https://www.smarteyes.se/p1"],
             bredd := [], brygga := [], glasbredd := [], skalmlangd := [] },
           ["/p1: invalid measurement value \x27abc mm\x27 or key \x27bredd\x27."]) ∧
    save_as_csv ⟨[], []⟩
        { url := [PyVal.str "https://www.smarteyes.se/p1"],
          bredd := [], brygga := [], glasbredd := [], skalmlangd := [] } =
      ({ dirs := [data_dir], files := [] }, none) := by
  exact ⟨rfl, rfl⟩
